import Mathlib

/-!
Verification development for the plurals Agent module (plurals/agent.py).

The Agent couples a persona or system-instruction configuration with a task
description and one external model-invocation capability.  The definitions
below are a shallow embedding of plurals/agent.py: pandas dataframes become
lists of rows, the global ANES dataset and persona mapping become explicit
parameters, Python exceptions become Except results, and the external
litellm completion call becomes an explicit outcome parameter.
-/

namespace Plurals

/-! ### String utilities

Python string primitives (lower, strip, replace, substring test) are
re-implemented over lists of characters with structural or fuel-based
recursion so every definition evaluates inside the kernel. -/

/-- Lower-cases an ASCII letter, the relevant fragment of Python str.lower. -/
def charLower (c : Char) : Char :=
  if 'A' ≤ c ∧ c ≤ 'Z' then Char.ofNat (c.toNat + 32) else c

/-- Models Python str.lower (ASCII fragment, which covers every string the
agent module compares case-insensitively). -/
def strLower (s : String) : String :=
  String.mk (s.data.map charLower)

/-- Whitespace recognized by Python str.strip on the strings in play. -/
def isSpaceChar (c : Char) : Bool :=
  c == ' ' || c == '\n' || c == '\t' || c == '\r'

/-- Models Python str.strip: drops leading and trailing whitespace. -/
def strTrim (s : String) : String :=
  String.mk (((s.data.dropWhile isSpaceChar).reverse.dropWhile isSpaceChar).reverse)

/-- Tests whether the first list is an initial segment of the second. -/
def matchesAt : List Char → List Char → Bool
  | [], _ => true
  | _ :: _, [] => false
  | p :: ps, c :: cs => p == c && matchesAt ps cs

/-- Substring occurrence test over character lists. -/
def listHasSub (pat : List Char) : List Char → Bool
  | [] => pat.isEmpty
  | c :: rest => matchesAt pat (c :: rest) || listHasSub pat rest

/-- Models the Python membership test pat in s on strings. -/
def strHasSub (pat s : String) : Bool :=
  listHasSub pat.data s.data

/-- Fuel-driven left-to-right non-overlapping replacement, the semantics of
Python str.replace.  The fuel is the length of the subject string, which
bounds the number of steps since every step consumes at least one char. -/
def replaceFuel (pat val : List Char) : Nat → List Char → List Char
  | 0, s => s
  | _ + 1, [] => []
  | fuel + 1, c :: rest =>
    if !pat.isEmpty && matchesAt pat (c :: rest) then
      val ++ replaceFuel pat val fuel (List.drop (pat.length - 1) rest)
    else
      c :: replaceFuel pat val fuel rest

/-- Models Python str.replace: every non-overlapping occurrence of pat in s
is replaced by val, scanning left to right. -/
def strReplace (s pat val : String) : String :=
  String.mk (replaceFuel pat.data val.data s.data.length s.data)

/-- Models the rendering of an Optional[str] inside a Python f-string or
str(): None renders as the literal text None. -/
def optToStr : Option String → String
  | none => "None"
  | some s => s

/-- Python truthiness of an Optional[str]: None and the empty string are
falsy, every other string is truthy. -/
def pyTruthyOpt : Option String → Bool
  | none => false
  | some s => s != ""

/-- Modelled from the spec: the SmartString templating helper lives in
plurals/helpers.py, which is not under src.  Per the spec it substitutes
each provided named placeholder (written with a dollar sign and braces),
leaves unresolved placeholders verbatim without raising, and returns the
post-substitution text trimmed of leading and trailing whitespace. -/
def render (template : String) (bindings : List (String × String)) : String :=
  strTrim (bindings.foldl
    (fun acc b => strReplace acc ("$" ++ "\x7b" ++ b.1 ++ "\x7d") b.2) template)

/-! ### Data model -/

/-- One row of the ANES dataset.  Named survey columns other than the ones
the agent module touches directly are kept in cols; a cell value of none
stands for a missing entry (NaN), which row.get and pd.isna treat alike. -/
structure Row where
  ideo5 : Option String := none
  weight : Option Rat := none
  birthyr : Option Int := none
  age : Option Int := none
  cols : List (String × Option String) := []
deriving DecidableEq

/-- The sampling weight of a row as a number; rows with a missing weight
never survive loading, so the default 0 is only a totalization device. -/
def weightVal (r : Row) : Rat :=
  r.weight.getD 0

/-- Embeds _load_global_anes_data (agent.py lines 12-36).  The CSV contents
are external input, so the loader takes the raw rows as a parameter: it
drops every row whose weight is missing and derives the age column as
2024 - birthyr.  The persona mapping loaded alongside is likewise passed
around explicitly. -/
def load_global_anes_data (raw : List Row) : List Row :=
  (raw.filter (fun r => r.weight.isSome)).map
    (fun r => { r with age := r.birthyr.map (fun b => 2024 - b) })

/-- Modelled from the spec: the single weight-proportional draw performed by
pandas DataFrame.sample(n=1, weights=...), rendered as inverse-CDF
selection driven by an external randomness value r.  The draw walks the
rows, returning the first row whose weight bucket contains r. -/
def samplePick : List Row → Rat → Option Row
  | [], _ => none
  | x :: xs, r => if r < weightVal x then some x else samplePick xs (r - weightVal x)

/-- One entry of the persona field mapping (anes-mapping.yaml): a display
label, sentinel values to skip, and a recode table. -/
structure MappingDetail where
  name : String
  bad_vals : List String := []
  recode_vals : List (String × String) := []
deriving DecidableEq

/-- Models row.get(var) in _row2persona: the derived age column renders its
integer value (the int(value) cast in the source is the identity here since
age is already integral), ideo5 is a named field, and every other column is
looked up in cols; an absent column and a missing cell are both none, which
is exactly how the source treats None and NaN. -/
def rowGetVal (r : Row) (v : String) : Option String :=
  if v = "age" then r.age.map (fun a => toString a)
  else if v = "ideo5" then r.ideo5
  else ((r.cols.lookup v).getD none)

/-- Embeds the static method _row2persona (agent.py lines 398-425): iterate
the mapping in order, skip absent or sentinel values, apply recodes, and
emit label-value clauses joined by single spaces. -/
def row2persona (row : Row) (persona_mapping : List (String × MappingDetail)) : String :=
  String.intercalate " " (persona_mapping.filterMap (fun vd =>
    match rowGetVal row vd.1 with
    | none => none
    | some value =>
      if vd.2.bad_vals.contains value then none
      else
        let value := (vd.2.recode_vals.lookup value).getD value
        some (vd.2.name ++ " " ++ strLower value ++ ".")))

/-- Embeds _filter_data_by_ideology (agent.py lines 427-452): the broad
liberal and conservative buckets also match their very sub-bucket, the
three remaining buckets match exactly one ideo5 label, and an unknown
bucket yields the empty frame. -/
def filter_data_by_ideology (data : List Row) (ideology : String) : List Row :=
  let l := strLower ideology
  if l = "liberal" then
    data.filter (fun r => r.ideo5 == some "Liberal" || r.ideo5 == some "Very liberal")
  else if l = "conservative" then
    data.filter (fun r => r.ideo5 == some "Conservative" || r.ideo5 == some "Very conservative")
  else if l = "moderate" then
    data.filter (fun r => r.ideo5 == some "Moderate")
  else if l = "very liberal" then
    data.filter (fun r => r.ideo5 == some "Very liberal")
  else if l = "very conservative" then
    data.filter (fun r => r.ideo5 == some "Very conservative")
  else []

/-! ### Agent state -/

/-- One record of the agent's history: the prompts sent (system prompt
present only when system instructions were truthy), the response text, and
the model identifier (agent.py lines 388-392). -/
structure HistoryEntry where
  systemPrompt : Option String
  userPrompt : Option String
  response : String
  model : String
deriving DecidableEq

/-- The mutable state of an Agent, mirroring the attributes set in
Agent.__init__ (agent.py lines 214-241). -/
structure Agent where
  model : String
  system_instructions : Option String
  combination_instructions : Option String
  history : List HistoryEntry
  persona_mapping : List (String × MappingDetail)
  task_description : Option String
  persona : Option String
  ideology : Option String
  data : List Row
  query_str : Option String
  original_task_description : Option String
  current_task_description : Option String
  persona_template : Option String

/-- The constructor arguments of Agent.__init__ with their defaults. -/
structure AgentConfig where
  task : Option String := none
  combination_instructions : Option String := none
  ideology : Option String := none
  query_str : Option String := none
  model : String := "gpt-4o"
  system_instructions : Option String := none
  persona_template : Option String := some "default"
  persona : Option String := none

/-- Modelled from the spec: the persona_template section of
instructions.yaml, which is not under src.  Per the spec it is a table of
named preset templates, each containing a persona placeholder; the exact
preset bodies are unavailable, so distinct representative bodies stand in
for them (no claim depends on the concrete preset text). -/
def DEFAULTS_persona_template : List (String × String) :=
  [("default", "INSTRUCTIONS\nAdopt the following persona: ${persona}\nCONSTRAINTS default"),
   ("anes", "INSTRUCTIONS\nAdopt the following persona: ${persona}\nCONSTRAINTS anes"),
   ("empathetic", "INSTRUCTIONS\nAdopt the following persona: ${persona}\nCONSTRAINTS empathetic"),
   ("second_wave", "INSTRUCTIONS\nAdopt the following persona: ${persona}\nCONSTRAINTS second wave")]

/-- The ideology buckets accepted by _validate_system_instructions. -/
def allowed_vals : List String :=
  ["liberal", "conservative", "moderate", "very liberal", "very conservative"]

/-- Message of the one-selector-only configuration error (agent.py 473). -/
def multiMsg : String :=
  "You can only pass in one of ideology, query_str, system_instructions, or persona"

/-- Message of the empty-filter error in _generate_persona (agent.py 307). -/
def noDataMsg : String :=
  "No data found satisfying conditions"

/-- Message of the persona-template validation error (agent.py 493-495). -/
def templateMsg : String :=
  "If you pass in a persona_template, it must contain a ${persona} placeholder or be one of the default templates"

/-- Message of the unknown-ideology validation error (agent.py 482). -/
def ideologyMsg : String :=
  "Ideology has to be one of the allowed values"

/-- Stands for the exception pandas raises when the weighted single-row
draw cannot produce a row (randomness value outside the total weight). -/
def samplingMsg : String :=
  "Error sampling a row from the filtered data"

/-- Stands for the AttributeError Python would raise on
None.strip() when persona_template is None on the persona path. -/
def noneAttrMsg : String :=
  "AttributeError: NoneType object has no strip"

/-- The number of truthy values among ideology, query_str, persona and
system_instructions, as summed at agent.py lines 471-472. -/
def selectorCount (a : Agent) : Nat :=
  [a.ideology, a.query_str, a.persona, a.system_instructions].countP pyTruthyOpt

/-- Embeds the attribute assignments of Agent.__init__ before validation
(agent.py lines 224-237): the dataset and persona mapping are the loaded
globals, passed explicitly. -/
def mkAgent (cfg : AgentConfig) (dataset : List Row)
    (mapping : List (String × MappingDetail)) : Agent :=
  { model := cfg.model
    system_instructions := cfg.system_instructions
    combination_instructions := cfg.combination_instructions
    history := []
    persona_mapping := mapping
    task_description := cfg.task
    persona := cfg.persona
    ideology := cfg.ideology
    data := dataset
    query_str := cfg.query_str
    original_task_description := cfg.task
    current_task_description := cfg.task
    persona_template := cfg.persona_template }

/-- Embeds _validate_templates (agent.py lines 484-495): a truthy
persona_template must contain the persona placeholder or be the name of a
preset template. -/
def validate_templates (a : Agent) : Except String Unit :=
  if pyTruthyOpt a.persona_template then
    let pt := a.persona_template.getD ""
    if strHasSub "${persona}" pt || (DEFAULTS_persona_template.map Prod.fst).contains pt
    then .ok () else .error templateMsg
  else .ok ()

/-- Embeds _validate_system_instructions (agent.py lines 454-482): at most
one of the four selectors may be truthy, and a truthy ideology must be one
of the allowed buckets.  The dataset-and-mapping presence assertion of
lines 465-469 cannot fire in this embedding because the loaded globals are
always supplied. -/
def validate_system_instructions (a : Agent) : Except String Unit :=
  if selectorCount a > 1 then .error multiMsg
  else if pyTruthyOpt a.ideology && !(allowed_vals.contains (a.ideology.getD "")) then
    .error ideologyMsg
  else .ok ()

/-- Embeds _generate_persona (agent.py lines 291-317).  It first rebinds
persona_template to the anes preset body, then draws a persona row: the
whole dataset for persona random, the ideology-filtered subset for a truthy
ideology, the query-filtered subset for a truthy query string (the pandas
query predicate semantics is the external parameter qeval); an empty
filtered subset is the hard no-matching-rows failure.  The randomness of
the weighted draw is the explicit parameter r. -/
def generate_persona (a : Agent) (r : Rat) (qeval : String → Row → Bool) :
    Except String Agent :=
  let a1 : Agent := { a with persona_template := DEFAULTS_persona_template.lookup "anes" }
  if a1.persona = some "random" then
    match samplePick a1.data r with
    | some row => .ok { a1 with persona := some (row2persona row a1.persona_mapping) }
    | none => .error samplingMsg
  else if pyTruthyOpt a1.ideology then
    let filtered := filter_data_by_ideology a1.data (a1.ideology.getD "")
    if filtered.isEmpty then .error noDataMsg
    else match samplePick filtered r with
      | some row => .ok { a1 with persona := some (row2persona row a1.persona_mapping) }
      | none => .error samplingMsg
  else if pyTruthyOpt a1.query_str then
    let filtered := a1.data.filter (qeval (a1.query_str.getD ""))
    if filtered.isEmpty then .error noDataMsg
    else match samplePick filtered r with
      | some row => .ok { a1 with persona := some (row2persona row a1.persona_mapping) }
      | none => .error samplingMsg
  else .ok { a1 with persona := none }

/-- Embeds _set_system_instructions (agent.py lines 243-288): explicit
system instructions win outright; with no selector at all the instructions
stay None; otherwise the persona is resolved (persona random first, then
any still-falsy persona) and the persona template - resolved through the
preset table, stripped - is rendered with the persona and the constructor
task. -/
def set_system_instructions (a : Agent) (r : Rat) (qeval : String → Row → Bool) :
    Except String Agent :=
  if a.system_instructions.isSome then .ok a
  else if !pyTruthyOpt a.persona && !pyTruthyOpt a.ideology && !pyTruthyOpt a.query_str then
    .ok { a with system_instructions := none }
  else
    match (if a.persona = some "random" then generate_persona a r qeval else .ok a) with
    | .error e => .error e
    | .ok a1 =>
      match (if !pyTruthyOpt a1.persona then generate_persona a1 r qeval else .ok a1) with
      | .error e => .error e
      | .ok a2 =>
        match a2.persona_template with
        | none => .error noneAttrMsg
        | some pt =>
          let ptText := strTrim ((DEFAULTS_persona_template.lookup pt).getD pt)
          .ok { a2 with
                persona_template := some ptText
                system_instructions := some (strTrim (render ptText
                  [("persona", optToStr a2.persona), ("task", optToStr a2.task_description)])) }

/-- Embeds Agent.__init__ (agent.py lines 214-241): set the attributes,
validate the templates, validate the system-instruction selectors, then
resolve the system instructions.  No model call occurs anywhere in
construction. -/
def agentInit (cfg : AgentConfig) (dataset : List Row)
    (mapping : List (String × MappingDetail)) (r : Rat)
    (qeval : String → Row → Bool) : Except String Agent :=
  let a := mkAgent cfg dataset mapping
  match validate_templates a with
  | .error e => .error e
  | .ok _ =>
    match validate_system_instructions a with
    | .error e => .error e
    | .ok _ => set_system_instructions a r qeval

/-- Embeds Agent.set_task (agent.py lines 530-538): reset both task
descriptions to the given text. -/
def set_task (a : Agent) (task : String) : Agent :=
  { a with original_task_description := some task, current_task_description := some task }

/-- Embeds _get_response (agent.py lines 368-396).  The external litellm
completion call is the explicit outcome parameter llm: on success the
prompts, response and model are appended to the history and the content is
returned; on an exception the error is only logged, nothing is recorded,
and None is returned. -/
def get_response (a : Agent) (task : Option String) (llm : Except String String) :
    Agent × Option String :=
  match llm with
  | .ok content =>
    let sys := if pyTruthyOpt a.system_instructions then a.system_instructions else none
    ({ a with history := a.history ++
        [{ systemPrompt := sys, userPrompt := task, response := content, model := a.model }] },
     some content)
  | .error _ => (a, none)

/-- Embeds Agent.process (agent.py lines 319-353): a truthy task argument
retargets the agent via set_task; truthy previous responses are rendered
through the combination instructions and appended after a newline to the
current task (falling back to the original task when the current one is
falsy), the whole stripped; empty previous responses reset the current task
to the original; then the model is invoked once on the current task. -/
def process (a : Agent) (task : Option String) (previous_responses : String)
    (llm : Except String String) : Agent × Option String :=
  let a1 := if pyTruthyOpt task then set_task a (task.getD "") else a
  let a2 :=
    if previous_responses ≠ "" then
      let combined := render (optToStr a1.combination_instructions)
        [("previous_responses", previous_responses)]
      let base := if pyTruthyOpt a1.current_task_description then
          a1.current_task_description else a1.original_task_description
      let updated := strTrim (optToStr base ++ "\n" ++ combined)
      { a1 with current_task_description := some updated }
    else
      { a1 with current_task_description := a1.original_task_description }
  get_response a2 a2.current_task_description llm

/-! ### Concrete inputs used by witnesses and counterexamples -/

/-- An agent with a task and combination instructions, no persona. -/
def agentC1 : Agent :=
  mkAgent { task := some "T",
            combination_instructions := some "prev: ${previous_responses}" } [] []

/-- An agent used to exhibit the history behaviour of a failed call. -/
def agentC5 : Agent := mkAgent { task := some "Say hello" } [] []

/-- A configuration with an ideology selector and a user-supplied custom
persona template. -/
def cfgC6 : AgentConfig :=
  { ideology := some "liberal", persona_template := some "You are ${persona}.",
    task := some "T" }

/-- A dataset of one liberal row. -/
def dataC6 : List Row := [{ ideo5 := some "Liberal", weight := some 1 }]

/-- A persona mapping rendering only the ideology field. -/
def mapC6 : List (String × MappingDetail) := [("ideo5", { name := "Your ideology is" })]

/-- A row retained by the loader although its weight is zero. -/
def rowC9 : Row := { weight := some 0 }

/-- A row with a positive weight. -/
def rowC9w : Row := { ideo5 := some "Moderate", weight := some 2 }

/-- A configuration with only an ideology selector. -/
def cfgC8 : AgentConfig := { ideology := some "liberal", task := some "T" }

/-- A configuration with only a query-string selector. -/
def cfgC8q : AgentConfig := { query_str := some "inputstate=='Atlantis'", task := some "T" }

/-- A configuration illegally combining two selectors. -/
def cfgC3bad : AgentConfig := { persona := some "a pirate", system_instructions := some "too" }

/-- A configuration with a single selector. -/
def cfgC3ok : AgentConfig := { persona := some "a pirate" }

/-! ### Helper lemmas -/

/-- The template validator only ever raises the template error. -/
lemma validate_templates_error_eq (a : Agent) (e : String)
    (h : validate_templates a = .error e) : e = templateMsg := by
  simp only [validate_templates] at h
  split at h
  · split at h
    · exact Except.noConfusion h
    · rw [Except.error.injEq] at h
      exact h.symm
  · exact Except.noConfusion h

/-- Persona generation only ever raises the no-matching-rows error or the
sampling error. -/
lemma generate_persona_error_eq (a : Agent) (r : Rat) (qeval : String → Row → Bool)
    (e : String) (h : generate_persona a r qeval = .error e) :
    e = noDataMsg ∨ e = samplingMsg := by
  simp only [generate_persona] at h
  repeat' split at h
  all_goals first
    | exact Except.noConfusion h
    | (rw [Except.error.injEq] at h; exact Or.inl h.symm)
    | (rw [Except.error.injEq] at h; exact Or.inr h.symm)

/-- System-instruction resolution only ever raises the no-matching-rows
error, the sampling error, or the missing-template attribute error. -/
lemma set_system_instructions_error_eq (a : Agent) (r : Rat)
    (qeval : String → Row → Bool) (e : String)
    (h : set_system_instructions a r qeval = .error e) :
    e = noDataMsg ∨ e = samplingMsg ∨ e = noneAttrMsg := by
  simp only [set_system_instructions] at h
  split at h
  · exact Except.noConfusion h
  · split at h
    · exact Except.noConfusion h
    · split at h
      next e1 heq =>
        rw [Except.error.injEq] at h
        subst h
        split at heq
        · rcases generate_persona_error_eq _ _ _ _ heq with h1 | h1
          · exact Or.inl h1
          · exact Or.inr (Or.inl h1)
        · exact Except.noConfusion heq
      next a1 heq =>
        split at h
        next e2 heq2 =>
          rw [Except.error.injEq] at h
          subst h
          split at heq2
          · rcases generate_persona_error_eq _ _ _ _ heq2 with h1 | h1
            · exact Or.inl h1
            · exact Or.inr (Or.inl h1)
          · exact Except.noConfusion heq2
        next a2 heq2 =>
          split at h
          · rw [Except.error.injEq] at h
            exact Or.inr (Or.inr h.symm)
          · exact Except.noConfusion h

/-- A weighted draw with nonnegative randomness only ever selects a row of
strictly positive weight: a zero-weight bucket is empty and cannot contain
the randomness value. -/
lemma samplePick_pos (l : List Row) :
    ∀ (r : Rat) (row : Row), 0 ≤ r → samplePick l r = some row → 0 < weightVal row := by
  induction l with
  | nil => intro r row _ hp; simp [samplePick] at hp
  | cons x xs ih =>
    intro r row h hp
    unfold samplePick at hp
    by_cases hlt : r < weightVal x
    · rw [if_pos hlt] at hp
      rw [Option.some.injEq] at hp
      subst hp
      exact lt_of_le_of_lt h hlt
    · rw [if_neg hlt] at hp
      exact ih (r - weightVal x) row (by simp at hlt; linarith) hp

/-- Constructor state projections, recorded once for rewriting. -/
lemma mkAgent_system_instructions (cfg : AgentConfig) (d : List Row)
    (m : List (String × MappingDetail)) :
    (mkAgent cfg d m).system_instructions = cfg.system_instructions := rfl

/-- The constructed state keeps the configured persona. -/
lemma mkAgent_persona (cfg : AgentConfig) (d : List Row)
    (m : List (String × MappingDetail)) :
    (mkAgent cfg d m).persona = cfg.persona := rfl

/-- The constructed state keeps the configured ideology. -/
lemma mkAgent_ideology (cfg : AgentConfig) (d : List Row)
    (m : List (String × MappingDetail)) :
    (mkAgent cfg d m).ideology = cfg.ideology := rfl

/-- The constructed state keeps the configured query string. -/
lemma mkAgent_query_str (cfg : AgentConfig) (d : List Row)
    (m : List (String × MappingDetail)) :
    (mkAgent cfg d m).query_str = cfg.query_str := rfl

/-- The constructed state stores the supplied dataset. -/
lemma mkAgent_data (cfg : AgentConfig) (d : List Row)
    (m : List (String × MappingDetail)) :
    (mkAgent cfg d m).data = d := rfl

/-! ### Claim theorems -/

/-- Claim C1: in Agent.process, a non-empty previous_responses string is
rendered through the combination-instruction template and the rendered
block is appended after a newline to the current task text (the original
task description standing in when the current task is unset), the result
stripped; an empty previous_responses resets current_task_description to
exactly original_task_description before the model invocation. -/
theorem claim1_process_previous_responses (a : Agent) (prev : String)
    (llm : Except String String) :
    (prev ≠ "" →
      (process a none prev llm).1.current_task_description =
        some (strTrim (optToStr (if pyTruthyOpt a.current_task_description then
            a.current_task_description else a.original_task_description) ++ "\n" ++
          render (optToStr a.combination_instructions) [("previous_responses", prev)]))) ∧
    (process a none "" llm).1.current_task_description = a.original_task_description := by
  constructor
  · intro h
    simp only [process, pyTruthyOpt, if_pos h]
    cases llm <;> rfl
  · cases llm <;> rfl

/-- Claim C1 witness: a concrete agent with task T and a combination
template; previous response R yields current task T, newline, rendered
block. -/
theorem claim1_process_previous_responses_wit :
    ("R" ≠ "") ∧
    (process agentC1 none "R" (Except.ok "resp")).1.current_task_description =
      some "T\nprev: R" := by
  refine ⟨by decide, ?_⟩
  have h := (claim1_process_previous_responses agentC1 "R" (Except.ok "resp")).1 (by decide)
  rw [h]
  rfl

/-- Claim C2: filtering the dataset by a valid ideology bucket keeps
exactly the rows of the dataset whose ideo5 label matches the bucket; the
broad liberal and conservative buckets also match their very sibling,
while moderate, very liberal and very conservative match exactly one
label. -/
theorem claim2_ideology_filter (data : List Row) (r : Row) :
    (r ∈ filter_data_by_ideology data "liberal" ↔
      r ∈ data ∧ (r.ideo5 = some "Liberal" ∨ r.ideo5 = some "Very liberal")) ∧
    (r ∈ filter_data_by_ideology data "conservative" ↔
      r ∈ data ∧ (r.ideo5 = some "Conservative" ∨ r.ideo5 = some "Very conservative")) ∧
    (r ∈ filter_data_by_ideology data "moderate" ↔
      r ∈ data ∧ r.ideo5 = some "Moderate") ∧
    (r ∈ filter_data_by_ideology data "very liberal" ↔
      r ∈ data ∧ r.ideo5 = some "Very liberal") ∧
    (r ∈ filter_data_by_ideology data "very conservative" ↔
      r ∈ data ∧ r.ideo5 = some "Very conservative") := by
  have h1 : filter_data_by_ideology data "liberal" =
      data.filter (fun x => x.ideo5 == some "Liberal" || x.ideo5 == some "Very liberal") := rfl
  have h2 : filter_data_by_ideology data "conservative" =
      data.filter (fun x => x.ideo5 == some "Conservative" || x.ideo5 == some "Very conservative") := rfl
  have h3 : filter_data_by_ideology data "moderate" =
      data.filter (fun x => x.ideo5 == some "Moderate") := rfl
  have h4 : filter_data_by_ideology data "very liberal" =
      data.filter (fun x => x.ideo5 == some "Very liberal") := rfl
  have h5 : filter_data_by_ideology data "very conservative" =
      data.filter (fun x => x.ideo5 == some "Very conservative") := rfl
  refine ⟨?_, ?_, ?_, ?_, ?_⟩ <;>
    simp [h1, h2, h3, h4, h5, List.mem_filter, and_comm]

/-- Claim C4: Agent.process never propagates a failure of the external
completion call: a raising invocation yields None, a successful invocation
yields the response text. -/
theorem claim4_process_absorbs_failure (a : Agent) (task : Option String)
    (prev : String) (e c : String) :
    (process a task prev (Except.error e)).2 = none ∧
    (process a task prev (Except.ok c)).2 = some c := by
  constructor <;> simp [process, get_response]

/-- Claim C5 counterexample: after a failed process call on a concrete
agent, the history is left exactly unchanged (and the call returns None):
the failed invocation is not recorded, contrary to the claim. -/
theorem claim5_cx_failed_call_not_recorded :
    (process agentC5 none "" (Except.error "Timeout")).1.history = agentC5.history ∧
    (process agentC5 none "" (Except.error "Timeout")).2 = none := ⟨rfl, rfl⟩

/-- Claim C5 as amended: a failed model invocation returns None and leaves
the agent's history unchanged; only a successful invocation appends an
entry. -/
theorem claim5_failed_call_history_unchanged (a : Agent) (task : Option String)
    (prev e : String) :
    (process a task prev (Except.error e)).1.history = a.history ∧
    (process a task prev (Except.error e)).2 = none := by
  refine ⟨?_, ?_⟩ <;> simp only [process, get_response, set_task]
  all_goals try (split <;> split <;> rfl)

/-- Claim C7: set_task resets both task descriptions to the given text and
changes nothing else: persona, system instructions, template, selectors,
history, model, dataset, mapping and the constructor task are untouched. -/
theorem claim7_set_task_frame (a : Agent) (t : String) :
    (set_task a t).original_task_description = some t ∧
    (set_task a t).current_task_description = some t ∧
    (set_task a t).persona = a.persona ∧
    (set_task a t).system_instructions = a.system_instructions ∧
    (set_task a t).persona_template = a.persona_template ∧
    (set_task a t).ideology = a.ideology ∧
    (set_task a t).query_str = a.query_str ∧
    (set_task a t).combination_instructions = a.combination_instructions ∧
    (set_task a t).history = a.history ∧
    (set_task a t).model = a.model ∧
    (set_task a t).data = a.data ∧
    (set_task a t).persona_mapping = a.persona_mapping ∧
    (set_task a t).task_description = a.task_description :=
  ⟨rfl, rfl, rfl, rfl, rfl, rfl, rfl, rfl, rfl, rfl, rfl, rfl, rfl⟩

/-- Claim C9 counterexample: the loader retains a row whose weight is
present but zero, so load-time exclusion of missing weights does not
establish that every retained row has weight greater than zero. -/
theorem claim9_cx_zero_weight_retained :
    load_global_anes_data [rowC9] = [rowC9] ∧ ¬ (0 < weightVal rowC9) :=
  ⟨rfl, by decide⟩

/-- Claim C9 as amended: every row retained by the loader has a present
(non-missing) weight, and a weight-proportional draw with nonnegative
randomness can only ever select a row of strictly positive weight; the
loader itself does not exclude nonpositive weights. -/
theorem claim9_retained_weights (raw : List Row) (r : Rat) (row : Row) :
    (∀ x ∈ load_global_anes_data raw, x.weight.isSome = true) ∧
    (0 ≤ r → samplePick (load_global_anes_data raw) r = some row →
      0 < weightVal row) := by
  constructor
  · intro x hx
    simp only [load_global_anes_data, List.mem_map, List.mem_filter] at hx
    obtain ⟨y, ⟨_, hw⟩, hxy⟩ := hx
    rw [← hxy]
    exact hw
  · exact fun h hp => samplePick_pos _ r row h hp

/-- Claim C9 witness: applying the amended theorem to a one-row dataset of
weight two shows the selected row has positive weight and a present
weight. -/
theorem claim9_retained_weights_wit :
    (0 < weightVal rowC9w) ∧ rowC9w.weight.isSome = true := by
  constructor
  · exact (claim9_retained_weights [rowC9w] 0 rowC9w).2 (by norm_num) (by rfl)
  · exact (claim9_retained_weights [rowC9w] 0 rowC9w).1 rowC9w (by decide)

/-- Claim C10: Agent.process treats an empty-string task argument exactly
like an absent one: the stored task descriptions are not replaced by it and
the call proceeds from the previously stored task, while a non-empty task
argument does retarget original_task_description. -/
theorem claim10_empty_task_kept (a : Agent) (prev : String)
    (llm : Except String String) (t : String) :
    process a (some "") prev llm = process a none prev llm ∧
    (process a (some "") prev llm).1.original_task_description =
      a.original_task_description ∧
    (t ≠ "" → (process a (some t) prev llm).1.original_task_description = some t) := by
  refine ⟨rfl, ?_, ?_⟩
  · simp only [process, get_response, pyTruthyOpt]
    split <;> split <;> rfl
  · intro h
    have ht : (t != "") = true := bne_iff_ne.mpr h
    simp only [process, get_response, pyTruthyOpt, ht, if_pos, set_task]
    split <;> split <;> rfl

/-- Claim C10 witness: a concrete process call with the non-empty task U
overwrites the stored original task. -/
theorem claim10_empty_task_kept_wit :
    ("U" ≠ "") ∧
    (process agentC5 (some "U") "" (Except.ok "r")).1.original_task_description =
      some "U" :=
  ⟨by decide, (claim10_empty_task_kept agentC5 "" (Except.ok "r") "U").2.2 (by decide)⟩

/-- Claim C3: constructing an Agent with more than one truthy value among
system_instructions, persona, ideology and query_str fails with a
configuration error before any model call (construction performs none),
while a count of at most one never produces the multiple-selector error. -/
theorem claim3_selector_exclusivity (cfg : AgentConfig) (dataset : List Row)
    (mapping : List (String × MappingDetail)) (r : Rat)
    (qeval : String → Row → Bool) :
    (selectorCount (mkAgent cfg dataset mapping) > 1 →
      ∃ e, agentInit cfg dataset mapping r qeval = .error e) ∧
    (selectorCount (mkAgent cfg dataset mapping) ≤ 1 →
      agentInit cfg dataset mapping r qeval ≠ .error multiMsg) := by
  constructor
  · intro hgt
    simp only [agentInit]
    cases hvt : validate_templates (mkAgent cfg dataset mapping) with
    | error e => exact ⟨e, rfl⟩
    | ok u =>
      refine ⟨multiMsg, ?_⟩
      have h2 : validate_system_instructions (mkAgent cfg dataset mapping) =
          Except.error multiMsg := by
        unfold validate_system_instructions
        rw [if_pos hgt]
      rw [h2]
  · intro hle hcontra
    simp only [agentInit] at hcontra
    cases hvt : validate_templates (mkAgent cfg dataset mapping) with
    | error e =>
      rw [hvt] at hcontra
      have hcontra2 : Except.error e = Except.error multiMsg := hcontra
      rw [Except.error.injEq] at hcontra2
      have he := validate_templates_error_eq _ _ hvt
      rw [he] at hcontra2
      exact absurd hcontra2 (by decide)
    | ok u =>
      rw [hvt] at hcontra
      cases hvsi : validate_system_instructions (mkAgent cfg dataset mapping) with
      | error e2 =>
        rw [hvsi] at hcontra
        have h3 : Except.error e2 = Except.error multiMsg := hcontra
        rw [Except.error.injEq] at h3
        unfold validate_system_instructions at hvsi
        rw [if_neg (by omega)] at hvsi
        split at hvsi
        · rw [Except.error.injEq] at hvsi
          rw [← hvsi] at h3
          exact absurd h3 (by decide)
        · exact Except.noConfusion hvsi
      | ok v =>
        rw [hvsi] at hcontra
        have h3 : set_system_instructions (mkAgent cfg dataset mapping) r qeval =
            Except.error multiMsg := hcontra
        rcases set_system_instructions_error_eq _ _ _ _ h3 with h | h | h <;>
          revert h <;> decide

/-- Claim C3 witness: a configuration with both persona and
system_instructions set fails construction, and one with only a persona
does not produce the multiple-selector error. -/
theorem claim3_selector_exclusivity_wit :
    (∃ e, agentInit cfgC3bad [] [] 0 (fun _ _ => false) = .error e) ∧
    agentInit cfgC3ok [] [] 0 (fun _ _ => false) ≠ .error multiMsg :=
  ⟨(claim3_selector_exclusivity cfgC3bad [] [] 0 (fun _ _ => false)).1 (by decide),
   (claim3_selector_exclusivity cfgC3ok [] [] 0 (fun _ _ => false)).2 (by decide)⟩

/-- Claim C8: when persona resolution goes through an ideology bucket or a
query string and the filtered dataset subset is empty, Agent construction
fails with the hard no-matching-rows error, raised at persona-resolution
time inside construction (no model call is involved anywhere in
construction) and not silently recovered. -/
theorem claim8_empty_filter_hard_failure (cfg : AgentConfig) (data : List Row)
    (mapping : List (String × MappingDetail)) (r : Rat)
    (qeval : String → Row → Bool) (i q : String) :
    (cfg.system_instructions = none → cfg.persona = none → cfg.query_str = none →
      cfg.ideology = some i → i ∈ allowed_vals →
      validate_templates (mkAgent cfg data mapping) = .ok () →
      filter_data_by_ideology data i = [] →
      agentInit cfg data mapping r qeval = .error noDataMsg) ∧
    (cfg.system_instructions = none → cfg.persona = none → cfg.ideology = none →
      cfg.query_str = some q → q ≠ "" →
      validate_templates (mkAgent cfg data mapping) = .ok () →
      data.filter (qeval q) = [] →
      agentInit cfg data mapping r qeval = .error noDataMsg) := by
  constructor
  · intro hsi hp hq hid hial hvt hfe
    have hine : i ≠ "" := by rintro rfl; revert hial; decide
    have htr : pyTruthyOpt (some i) = true := by
      simp [pyTruthyOpt, hine]
    have hcount : selectorCount (mkAgent cfg data mapping) = 1 := by
      simp [selectorCount, mkAgent, hsi, hp, hq, hid, htr, pyTruthyOpt,
        List.countP_cons, List.countP_nil, hine]
    have hcontains : allowed_vals.contains i = true := List.elem_eq_true_of_mem hial
    have hvsi : validate_system_instructions (mkAgent cfg data mapping) = .ok () := by
      unfold validate_system_instructions
      rw [hcount]
      simp [mkAgent_ideology, hid, htr, hcontains, hial]
    have hgen : generate_persona (mkAgent cfg data mapping) r qeval = .error noDataMsg := by
      unfold generate_persona
      simp [mkAgent_persona, mkAgent_ideology, mkAgent_data, hp, hid, htr, hfe,
        pyTruthyOpt, hine]
    have hssi : set_system_instructions (mkAgent cfg data mapping) r qeval =
        .error noDataMsg := by
      unfold set_system_instructions
      simp [mkAgent_system_instructions, mkAgent_persona, mkAgent_ideology,
        mkAgent_query_str, hsi, hp, hq, hid, htr, pyTruthyOpt, hgen, hine]
    simp only [agentInit, hvt, hvsi, hssi]
  · intro hsi hp hid hq hqne hvt hfq
    have htr : pyTruthyOpt (some q) = true := by
      simp [pyTruthyOpt, hqne]
    have hcount : selectorCount (mkAgent cfg data mapping) = 1 := by
      simp [selectorCount, mkAgent, hsi, hp, hq, hid, htr, pyTruthyOpt,
        List.countP_cons, List.countP_nil, hqne]
    have hvsi : validate_system_instructions (mkAgent cfg data mapping) = .ok () := by
      unfold validate_system_instructions
      rw [hcount]
      simp [mkAgent_ideology, hid, pyTruthyOpt, hqne]
    have hgen : generate_persona (mkAgent cfg data mapping) r qeval = .error noDataMsg := by
      unfold generate_persona
      simp [mkAgent_persona, mkAgent_ideology, mkAgent_query_str, mkAgent_data,
        hp, hid, hq, htr, pyTruthyOpt, hfq, hqne]
    have hssi : set_system_instructions (mkAgent cfg data mapping) r qeval =
        .error noDataMsg := by
      unfold set_system_instructions
      simp [mkAgent_system_instructions, mkAgent_persona, mkAgent_ideology,
        mkAgent_query_str, hsi, hp, hid, hq, htr, pyTruthyOpt, hgen, hqne]
    simp only [agentInit, hvt, hvsi, hssi]

/-- Claim C8 witness: an ideology of liberal over a dataset with only a
moderate row, and a query matching nothing, both fail construction with
the no-matching-rows error. -/
theorem claim8_empty_filter_hard_failure_wit :
    agentInit cfgC8 [rowC9w] mapC6 0 (fun _ _ => false) = .error noDataMsg ∧
    agentInit cfgC8q [rowC9w] mapC6 0 (fun _ _ => false) = .error noDataMsg :=
  ⟨(claim8_empty_filter_hard_failure cfgC8 [rowC9w] mapC6 0 (fun _ _ => false)
      "liberal" "x").1 rfl rfl rfl rfl (by decide) (by rfl) (by rfl),
   (claim8_empty_filter_hard_failure cfgC8q [rowC9w] mapC6 0 (fun _ _ => false)
      "x" "inputstate=='Atlantis'").2 rfl rfl rfl rfl (by decide) (by rfl) (by rfl)⟩

/-- Claim C6: evaluating construction at an ideology selector together
with the user-supplied template "You are ${persona}." shows the code
discards the supplied template: _generate_persona unconditionally rebinds
persona_template to the anes preset, so the rendered system instructions
come from the anes preset body, not from the template the caller passed
(contradicting the documented contract that a supplied template is the one
rendered). -/
theorem claim6_user_template_ignored :
    (agentInit cfgC6 dataC6 mapC6 0 (fun _ _ => false)).map
        (fun a => (a.persona_template, a.system_instructions)) =
      Except.ok
        (some "INSTRUCTIONS\nAdopt the following persona: ${persona}\nCONSTRAINTS anes",
         some "INSTRUCTIONS\nAdopt the following persona: Your ideology is liberal.\nCONSTRAINTS anes") ∧
    some "INSTRUCTIONS\nAdopt the following persona: ${persona}\nCONSTRAINTS anes" ≠
      cfgC6.persona_template :=
  ⟨rfl, by decide⟩

end Plurals
